import Mathlib

/-!
Verification of the conversation-lifecycle guard and the CSAT scoring
pipeline of the omnichannel chat widget.

The embedding is shallow:

* The guard predicates are translated from the inline boolean expressions of
  `src/chat-widget/src/components/livechatwidget/common/raceConditionPrevention.spec.ts`
  and the auto-dismiss effect of
  `src/chat-widget/src/components/confirmationpanestateful/ConfirmationPaneStateful.tsx`.
* The scoring pipeline is translated from
  `src/chat-widget/src/services/SentimentAnalysisService.ts`.
* JavaScript numbers are modelled as exact rationals (`Rat`) and the integer
  scores as `Int`; `Math.round` is Mathlib's `round` (both round halves up),
  `Math.max`/`Math.min` are `max`/`min`.
* Optional values (`undefined`) are `Option`; JavaScript string truthiness
  (both `undefined` and `""` are falsy) is made explicit where the source
  relies on it.
* Strings are Lean `String`s; `String.length` stands for the JavaScript
  `length` (the two count units differently only outside the ASCII plane,
  which no claim depends on).
-/

/-- Conversation phases of the external chat SDK session
(`ConversationState` enum of `src/chat-widget/src/contexts/common/ConversationState`;
the constructors are the ones named by the specification, section 3). -/
inductive ConversationState where
  | Loading
  | Active
  | InActive
  | Closed
  | Postchat
  | PostchatLoading
  | Error
  deriving DecidableEq, Repr, Fintype

/-- Who ended the conversation (`ConversationEndEntity` enum of
`src/chat-widget/src/common/Constants`). The source's `System` entry is named
`SystemGenerated` here because `System` is a root namespace in Lean. -/
inductive ConversationEndEntity where
  | NotSet
  | Customer
  | Agent
  | SystemGenerated
  deriving DecidableEq, Repr, Fintype

/-- Whether the user confirmed the end-chat dialog (`ConfirmationState` of
`src/chat-widget/src/common/Constants`). -/
inductive ConfirmationState where
  | NotSet
  | Ok
  | Cancel
  deriving DecidableEq, Repr, Fintype

/-- The fields of the shared `appStates` record that the guard reads. -/
structure AppStates where
  conversationState : ConversationState
  conversationEndedBy : ConversationEndEntity
  startChatFailed : Bool
  deriving DecidableEq, Repr, Fintype

/-- Start-chat guard, translated from the inline expression of
`raceConditionPrevention.spec.ts` (lines 17-21 and its other copies):
block when `conversationEndedBy !== NotSet`, or the state is
`PostchatLoading` or `Postchat`, or (not persistent and the state is
`InActive`). -/
def shouldPreventStartChat (inMemState : AppStates) (isPersistent : Bool) : Bool :=
  decide (inMemState.conversationEndedBy ≠ ConversationEndEntity.NotSet) ||
  decide (inMemState.conversationState = ConversationState.PostchatLoading) ||
  decide (inMemState.conversationState = ConversationState.Postchat) ||
  (!isPersistent && decide (inMemState.conversationState = ConversationState.InActive))

/-- End-chat guard, translated from the inline expression of
`raceConditionPrevention.spec.ts` (lines 128-129 and its other copies):
block only while the state is `Loading` and the start attempt has not
failed. -/
def shouldPreventEndChat (inMemoryState : AppStates) : Bool :=
  decide (inMemoryState.conversationState = ConversationState.Loading) &&
  !inMemoryState.startChatFailed

/-- Auto-dismiss decision of the confirmation pane, translated from the
`useEffect` of `ConfirmationPaneStateful.tsx` (lines 95-119): the early
returns on a hidden pane and on an unconfirmed dialog, then the
`endChatCompleted` disjunction guarding the `SET_SHOW_CONFIRMATION false`
dispatch. -/
def shouldDismissConfirmationPane (state : AppStates)
    (confirmationState : ConfirmationState) (showConfirmationPane : Bool) : Bool :=
  if !showConfirmationPane then
    false
  else if !(decide (confirmationState = ConfirmationState.Ok)) then
    false
  else
    decide (state.conversationState = ConversationState.Closed) ||
    decide (state.conversationState = ConversationState.PostchatLoading) ||
    decide (state.conversationState = ConversationState.Postchat) ||
    decide (state.conversationState = ConversationState.Error) ||
    (decide (state.conversationState = ConversationState.Loading) && state.startChatFailed)

/-- Claim C1: `shouldPreventStartChat(state, isPersistent)` is true exactly when
`conversationEndedBy != NotSet`, or the conversation state is `PostchatLoading`
or `Postchat`, or (`isPersistent` is false and the state is `InActive`); in
particular it is true whenever `conversationEndedBy != NotSet`, and for an
`InActive` state with `conversationEndedBy == NotSet` it is true without
persistence and false with persistence. -/
theorem claim_C1_shouldPreventStartChat :
    ∀ (s : AppStates) (isPersistent : Bool),
      (shouldPreventStartChat s isPersistent = true ↔
        (s.conversationEndedBy ≠ ConversationEndEntity.NotSet ∨
         s.conversationState = ConversationState.PostchatLoading ∨
         s.conversationState = ConversationState.Postchat ∨
         (isPersistent = false ∧ s.conversationState = ConversationState.InActive))) ∧
      (s.conversationEndedBy ≠ ConversationEndEntity.NotSet →
        shouldPreventStartChat s isPersistent = true) ∧
      (s.conversationEndedBy = ConversationEndEntity.NotSet →
        s.conversationState = ConversationState.InActive →
        shouldPreventStartChat s false = true ∧ shouldPreventStartChat s true = false) := by
  decide

/-- Claim C2: `shouldPreventEndChat(state)` is true exactly when the
conversation state is `Loading` and `startChatFailed` is false; it is false
for every non-`Loading` state and for `Loading` with a failed start. -/
theorem claim_C2_shouldPreventEndChat :
    ∀ s : AppStates,
      (shouldPreventEndChat s = true ↔
        (s.conversationState = ConversationState.Loading ∧ s.startChatFailed = false)) ∧
      (s.conversationState ≠ ConversationState.Loading → shouldPreventEndChat s = false) ∧
      (s.conversationState = ConversationState.Loading → s.startChatFailed = true →
        shouldPreventEndChat s = false) := by
  decide

/-- Claim C3: the confirmation pane is dismissed exactly when it is shown,
the user confirmed (`Ok`), and the conversation reached a settled phase
(`Closed`, `PostchatLoading`, `Postchat`, `Error`, or `Loading` with a
failed start); while the confirmation state is not `Ok` it is never
dismissed. -/
theorem claim_C3_shouldDismissConfirmationPane :
    ∀ (s : AppStates) (cs : ConfirmationState) (pane : Bool),
      (shouldDismissConfirmationPane s cs pane = true ↔
        (pane = true ∧ cs = ConfirmationState.Ok ∧
          (s.conversationState = ConversationState.Closed ∨
           s.conversationState = ConversationState.PostchatLoading ∨
           s.conversationState = ConversationState.Postchat ∨
           s.conversationState = ConversationState.Error ∨
           (s.conversationState = ConversationState.Loading ∧ s.startChatFailed = true)))) ∧
      (cs ≠ ConfirmationState.Ok → shouldDismissConfirmationPane s cs pane = false) := by
  decide

/-- Sender categories of a transcript message (`ChatMessage.sender` union of
`SentimentAnalysisService.ts`). -/
inductive Sender where
  | customer
  | agent
  | bot
  deriving DecidableEq, Repr

/-- A normalized transcript message (`ChatMessage` of
`SentimentAnalysisService.ts`). -/
structure ChatMessage where
  content : String
  sender : Sender
  timestamp : String
  deriving DecidableEq, Repr

/-- The CSAT analysis result (`CSATResult` of `SentimentAnalysisService.ts`).
The free-text `reasoning` diagnostic is not modelled (no claim reads it); the
optional `surveyResponseIncluded` flag is a `Bool`, `false` standing for the
absent (undefined) field. -/
structure CSATResult where
  csatScore : Int
  confidence : Rat
  sentiment : String
  satisfactionLevel : String
  surveyResponseIncluded : Bool
  deriving DecidableEq, Repr

/-- An explicit survey answer (`CopilotSurveyResponse` of
`SentimentAnalysisService.ts`). The optional `conversationId`, `userId`,
`botId` and `confidence` fields are not modelled (no claim reads them). -/
structure CopilotSurveyResponse where
  response : String
  timestamp : String
  deriving DecidableEq, Repr

/-- The `channelData` payload of a DirectLine activity. -/
structure ChannelData where
  clientActivityID : Option String
  cci_trace_id : Option String
  deriving DecidableEq, Repr

/-- An inbound DirectLine activity (`DirectLineActivity` of
`SentimentAnalysisService.ts`); the `from` and `localTimestamp` fields are
not modelled (no claim reads them). -/
structure DirectLineActivity where
  type : Option String
  text : Option String
  textFormat : Option String
  channelData : Option ChannelData
  cci_bot_id : Option String
  deriving DecidableEq, Repr

/-- JavaScript truthiness of an optional string: `undefined` and `""` are
falsy, every other string is truthy. -/
def truthy (o : Option String) : Bool :=
  match o with
  | none => false
  | some s => !(decide (s = ""))

/-- The test `/^[1-5]$/.test(text)` of `SentimentAnalysisService.ts` line 395:
the whole text is a single character between `'1'` and `'5'` (JavaScript `^`
and `$` without the multiline flag anchor at the very ends of the string). -/
def isSingleDigit1to5 (t : String) : Bool :=
  match t.data with
  | [c] => decide ('1' ≤ c) && decide (c ≤ '5')
  | _ => false

/-- Survey-activity recognition, translated from `isCopilotSurveyResponse`
(`SentimentAnalysisService.ts` lines 389-398): a plain message carrying a
truthy `channelData.clientActivityID`, a truthy `cci_bot_id`, and a text that
is exactly one digit 1-5, with plain text format. -/
def isCopilotSurveyResponse (activity : DirectLineActivity) : Bool :=
  decide (activity.type = some "message") &&
  truthy (match activity.channelData with
          | none => none
          | some cd => cd.clientActivityID) &&
  truthy activity.cci_bot_id &&
  truthy activity.text &&
  (match activity.text with
   | none => false
   | some t => isSingleDigit1to5 t) &&
  decide (activity.textFormat = some "plain")

/-- Unfolding of `truthy` into a proposition. -/
theorem truthy_iff (o : Option String) :
    truthy o = true ↔ ∃ s, o = some s ∧ s ≠ "" := by
  cases o with
  | none => simp [truthy]
  | some s => simp [truthy]

/-- Unfolding of `isSingleDigit1to5` into a proposition. -/
theorem isSingleDigit1to5_iff (t : String) :
    isSingleDigit1to5 t = true ↔ ∃ c, t.data = [c] ∧ '1' ≤ c ∧ c ≤ '5' := by
  unfold isSingleDigit1to5
  rcases h : t.data with _ | ⟨c, _ | ⟨c2, rest⟩⟩ <;> simp [h, and_assoc]

/-- A string whose characters are a singleton list is not empty. -/
theorem ne_empty_of_data_single {t : String} {c : Char} (h : t.data = [c]) :
    t ≠ "" := by
  intro he
  rw [he] at h
  exact List.noConfusion h

/-- A sample activity accepted by `isCopilotSurveyResponse`: text `"3"` with
all the required fields present and plain text format. -/
def surveyActivity3 : DirectLineActivity :=
  { type := some "message"
    text := some "3"
    textFormat := some "plain"
    channelData := some { clientActivityID := some "client-1", cci_trace_id := none }
    cci_bot_id := some "bot-1" }

/-- The same activity with the two-digit text `"12"`. -/
def surveyActivity12 : DirectLineActivity :=
  { surveyActivity3 with text := some "12" }

/-- Claim C7: `isCopilotSurveyResponse(activity)` is true exactly when the
activity's type is `"message"`, it carries a non-empty
`channelData.clientActivityID` and a non-empty `cci_bot_id`, its text is
exactly one digit 1-5, and its `textFormat` is `"plain"`; in particular text
`"3"` is accepted and text `"12"` is rejected when every other field is in
place. -/
theorem claim_C7_isCopilotSurveyResponse :
    (∀ activity : DirectLineActivity,
      isCopilotSurveyResponse activity = true ↔
        (activity.type = some "message" ∧
         (∃ cd, activity.channelData = some cd ∧
            ∃ s, cd.clientActivityID = some s ∧ s ≠ "") ∧
         (∃ b, activity.cci_bot_id = some b ∧ b ≠ "") ∧
         (∃ t c, activity.text = some t ∧ t.data = [c] ∧ '1' ≤ c ∧ c ≤ '5') ∧
         activity.textFormat = some "plain")) ∧
    isCopilotSurveyResponse surveyActivity3 = true ∧
    isCopilotSurveyResponse surveyActivity12 = false := by
  refine ⟨?_, by decide, by decide⟩
  intro a
  unfold isCopilotSurveyResponse
  simp only [Bool.and_eq_true, decide_eq_true_eq, truthy_iff, isSingleDigit1to5_iff]
  constructor
  · rintro ⟨⟨⟨⟨⟨hty, hcd⟩, hbot⟩, htx⟩, hdig⟩, hfmt⟩
    refine ⟨hty, ?_, hbot, ?_, hfmt⟩
    · rcases hc : a.channelData with _ | cd
      · rw [hc] at hcd
        simp at hcd
      · rw [hc] at hcd
        exact ⟨cd, rfl, hcd⟩
    · rcases ht : a.text with _ | t
      · rw [ht] at hdig
        simp at hdig
      · rw [ht] at hdig
        have hdig' : isSingleDigit1to5 t = true := hdig
        rw [isSingleDigit1to5_iff] at hdig'
        obtain ⟨c, hdata, h1, h5⟩ := hdig'
        exact ⟨t, c, rfl, hdata, h1, h5⟩
  · rintro ⟨hty, ⟨cd, hcd, hact⟩, hbot, ⟨t, c, ht, hdata, h1, h5⟩, hfmt⟩
    refine ⟨⟨⟨⟨⟨hty, ?_⟩, hbot⟩, ?_⟩, ?_⟩, hfmt⟩
    · rw [hcd]
      exact hact
    · exact ⟨t, by rw [ht], ne_empty_of_data_single hdata⟩
    · rw [ht]
      show isSingleDigit1to5 t = true
      rw [isSingleDigit1to5_iff]
      exact ⟨c, hdata, h1, h5⟩

/-- Substring containment on character lists: the needle occurs contiguously
somewhere in the haystack. -/
def charsContain (needle : List Char) : List Char → Bool
  | [] => needle.isEmpty
  | c :: rest => needle.isPrefixOf (c :: rest) || charsContain needle rest

/-- JavaScript `haystack.includes(needle)` on strings. -/
def strIncludes (haystack needle : String) : Bool :=
  charsContain needle.data haystack.data

/-- The optional-chained `tags?.includes(needle)` of the source (`tags` is a
string in `SDKMessage`): false when `tags` is undefined. -/
def tagsInclude (tags : Option String) (needle : String) : Bool :=
  match tags with
  | none => false
  | some s => strIncludes s needle

/-- The `application` entry of an SDK message's `from` field; only its
`displayName` is read by the service. -/
structure SDKFromApplication where
  displayName : Option String
  deriving DecidableEq, Repr

/-- The `from` field of an SDK message; the `user` entry is not modelled (no
claim reads it). -/
structure SDKFromField where
  application : Option SDKFromApplication
  deriving DecidableEq, Repr

/-- The raw transcript message fields read by sender classification
(`SDKMessage` of `SentimentAnalysisService.ts`). `msgFrom` is the source's
`from` field, renamed because `from` is a Lean keyword; `sender` is the
explicit sender field the specification's classifier consults. -/
structure SDKMessage where
  tags : Option String
  msgFrom : Option SDKFromField
  sender : Option String
  deriving DecidableEq, Repr

/-- The optional chain `message.from?.application?.displayName`. -/
def fromApplicationDisplayName (message : SDKMessage) : Option String :=
  match message.msgFrom with
  | none => none
  | some f =>
    match f.application with
    | none => none
    | some app => app.displayName

/-- Sender classification, translated from `determineSender`
(`SentimentAnalysisService.ts` lines 247-257): customer when the tags contain
`"FromCustomer"` or the application display name is exactly `"Customer"`;
else agent when the tags contain `"public"`; else bot. -/
def determineSender (message : SDKMessage) : Sender :=
  if tagsInclude message.tags "FromCustomer" ||
     decide (fromApplicationDisplayName message = some "Customer") then
    Sender.customer
  else if tagsInclude message.tags "public" then
    Sender.agent
  else
    Sender.bot

/-- Explicit sender-field fallback of the specification's classifier. -/
def senderFromField (message : SDKMessage) : Sender :=
  match message.sender with
  | none => Sender.bot
  | some s =>
    if s = "customer" then Sender.customer
    else if s = "agent" then Sender.agent
    else Sender.bot

/-- Modelled from the spec: the sender classifier claim C8 describes
(specification section 4.2 step 4), with display-name heuristics the source
does not have. Priority: explicit tag markers, then display-name substring
heuristics (a name containing `"bot"` or `"virtual"` is a bot, one containing
`"agent"` is an agent), then the explicit sender field, and bot by default. -/
def claimSender (message : SDKMessage) : Sender :=
  if tagsInclude message.tags "FromCustomer" then Sender.customer
  else if tagsInclude message.tags "public" then Sender.agent
  else
    match fromApplicationDisplayName message with
    | some d =>
      if strIncludes d "bot" || strIncludes d "virtual" then Sender.bot
      else if strIncludes d "agent" then Sender.agent
      else senderFromField message
    | none => senderFromField message

/-- A message with no tag markers whose application display name contains
`"agent"`: the specification's display-name heuristic classifies it as agent,
the source classifies it as bot. -/
def heuristicOnlyMessage : SDKMessage :=
  { tags := none
    msgFrom := some { application := some { displayName := some "live agent" } }
    sender := none }

/-- Claim C8 counterexample: on a message with no tags and display name
`"live agent"`, the classifier described by the claim returns agent while the
source's `determineSender` returns bot, so the claimed display-name
heuristics do not exist in the code. -/
theorem claim_C8_counterexample :
    claimSender heuristicOnlyMessage = Sender.agent ∧
    determineSender heuristicOnlyMessage = Sender.bot := by
  constructor <;> decide

/-- Claim C8 amended: the sender classifier assigns customer exactly when the
tags contain `"FromCustomer"` or the application display name is exactly
`"Customer"`; otherwise agent exactly when the tags contain `"public"`;
otherwise bot. No display-name substring heuristics and no explicit sender
field are consulted. -/
theorem claim_C8_determineSender :
    ∀ message : SDKMessage,
      (determineSender message = Sender.customer ↔
        (tagsInclude message.tags "FromCustomer" = true ∨
         fromApplicationDisplayName message = some "Customer")) ∧
      (determineSender message = Sender.agent ↔
        (¬(tagsInclude message.tags "FromCustomer" = true ∨
           fromApplicationDisplayName message = some "Customer") ∧
         tagsInclude message.tags "public" = true)) ∧
      (determineSender message = Sender.bot ↔
        (¬(tagsInclude message.tags "FromCustomer" = true ∨
           fromApplicationDisplayName message = some "Customer") ∧
         tagsInclude message.tags "public" = false)) := by
  intro m
  unfold determineSender
  by_cases h1 : (tagsInclude m.tags "FromCustomer" ||
      decide (fromApplicationDisplayName m = some "Customer")) = true
  · rw [if_pos h1]
    simp only [Bool.or_eq_true, decide_eq_true_eq] at h1
    simp [h1]
  · rw [if_neg h1]
    simp only [Bool.or_eq_true, decide_eq_true_eq] at h1
    by_cases h2 : tagsInclude m.tags "public" = true
    · rw [if_pos h2]
      simp [h1, h2]
    · rw [if_neg h2]
      simp only [Bool.not_eq_true] at h2
      simp [h1, h2]

/-- Satisfaction label, translated from `mapSentimentToSatisfaction`
(`SentimentAnalysisService.ts` lines 95-113): keyed on the 1-5 score, with a
sentiment-based fallback for out-of-range scores. -/
def mapSentimentToSatisfaction (sentiment : String) (csatScore : Int) : String :=
  if csatScore = 5 then "Very Satisfied"
  else if csatScore = 4 then "Satisfied"
  else if csatScore = 3 then "Neutral"
  else if csatScore = 2 then "Dissatisfied"
  else if csatScore = 1 then "Very Dissatisfied"
  else if sentiment = "positive" then "Satisfied"
  else if sentiment = "negative" then "Dissatisfied"
  else "Neutral"

/-- Score-to-sentiment mapping, translated from `mapScoreToSentiment`
(`SentimentAnalysisService.ts` lines 563-567). -/
def mapScoreToSentiment (score : Int) : String :=
  if score ≥ 4 then "positive"
  else if score ≤ 2 then "negative"
  else "neutral"

/-- Per-class confidence scores of the provider response
(`confidenceScores` of the Azure SDK result). -/
structure ConfidenceScores where
  positive : Rat
  negative : Rat
  neutral : Rat
  deriving DecidableEq, Repr

/-- A successful provider response (`SentimentAnalysisSuccessResult`): a
sentiment label and the per-class confidence scores. The empty string stands
for a falsy (missing) sentiment, which the source rejects. -/
structure SentimentSuccessResult where
  sentiment : String
  confidenceScores : ConfidenceScores
  deriving DecidableEq, Repr

/-- Provider-response parsing, translated from `parseAzureSDKResponse`
(`SentimentAnalysisService.ts` lines 339-376): reject a falsy sentiment, map
`"mixed"` to `"neutral"`, take the maximum per-class confidence, and map the
sentiment plus its class confidence to a 1-5 score (default 3). -/
def parseAzureSDKResponse (result : SentimentSuccessResult) : Option CSATResult :=
  if result.sentiment = "" then
    none
  else
    let sentiment := if result.sentiment = "mixed" then "neutral" else result.sentiment
    let confidence := max result.confidenceScores.positive
      (max result.confidenceScores.negative result.confidenceScores.neutral)
    let csatScore : Int :=
      if sentiment = "positive" then
        if result.confidenceScores.positive > 8/10 then 5
        else if result.confidenceScores.positive > 6/10 then 4
        else 4
      else if sentiment = "negative" then
        if result.confidenceScores.negative > 8/10 then 1
        else if result.confidenceScores.negative > 6/10 then 2
        else 2
      else 3
    some { csatScore := csatScore
           confidence := confidence
           sentiment := sentiment
           satisfactionLevel := mapSentimentToSatisfaction sentiment csatScore
           surveyResponseIncluded := false }

/-- JavaScript `parseInt(s)` restricted to base 10: skip leading whitespace,
read an optional sign and then the longest run of decimal digits; `none`
stands for `NaN`. -/
def parseIntJS (s : String) : Option Int :=
  let cs := s.data.dropWhile (fun c => c.isWhitespace)
  match cs with
  | '-' :: rest =>
    let digits := rest.takeWhile Char.isDigit
    if digits.isEmpty then none
    else some (-((digits.foldl (fun acc c => acc * 10 + (c.toNat - 48)) 0 : Nat) : Int))
  | '+' :: rest =>
    let digits := rest.takeWhile Char.isDigit
    if digits.isEmpty then none
    else some ((digits.foldl (fun acc c => acc * 10 + (c.toNat - 48)) 0 : Nat) : Int)
  | _ =>
    let digits := cs.takeWhile Char.isDigit
    if digits.isEmpty then none
    else some ((digits.foldl (fun acc c => acc * 10 + (c.toNat - 48)) 0 : Nat) : Int)

/-- Survey blending, translated from `combineSentimentAndSurvey`
(`SentimentAnalysisService.ts` lines 497-525): an invalid survey score leaves
the AI result untouched; a valid one is blended 70/30, rounded, clamped to
[1, 5], with confidence raised to at least 0.95 and the sentiment re-derived
from the final score. -/
def combineSentimentAndSurvey (sentimentResult : CSATResult)
    (surveyResponse : CopilotSurveyResponse) : CSATResult :=
  match parseIntJS surveyResponse.response with
  | none => sentimentResult
  | some surveyScore =>
    if surveyScore < 1 ∨ surveyScore > 5 then
      sentimentResult
    else
      let combinedScore : Int :=
        round ((surveyScore : Rat) * (7/10) + (sentimentResult.csatScore : Rat) * (3/10))
      let finalScore := max 1 (min 5 combinedScore)
      { csatScore := finalScore
        confidence := max sentimentResult.confidence (95/100)
        sentiment := mapScoreToSentiment finalScore
        satisfactionLevel := mapSentimentToSatisfaction "" finalScore
        surveyResponseIncluded := true }

/-- Survey-only synthesis, translated from `createCSATFromSurvey`
(`SentimentAnalysisService.ts` lines 532-556): a valid survey score becomes
the CSAT score with confidence 0.95; an invalid one yields the neutral
fallback (score 3, confidence 0.5). -/
def createCSATFromSurvey (surveyResponse : CopilotSurveyResponse) : CSATResult :=
  match parseIntJS surveyResponse.response with
  | none =>
    { csatScore := 3
      confidence := 1/2
      sentiment := "neutral"
      satisfactionLevel := "Neutral"
      surveyResponseIncluded := true }
  | some surveyScore =>
    if surveyScore < 1 ∨ surveyScore > 5 then
      { csatScore := 3
        confidence := 1/2
        sentiment := "neutral"
        satisfactionLevel := "Neutral"
        surveyResponseIncluded := true }
    else
      { csatScore := surveyScore
        confidence := 95/100
        sentiment := mapScoreToSentiment surveyScore
        satisfactionLevel := mapSentimentToSatisfaction "" surveyScore
        surveyResponseIncluded := true }

/-- Result combination of `analyzeSentimentWithSurvey`
(`SentimentAnalysisService.ts` lines 427-489), with the asynchronous AI
analysis abstracted into its `Option CSATResult` outcome: survey plus AI
result are blended, a survey alone is synthesized into a CSAT result, and
without a survey the AI result passes through. -/
def analyzeSentimentWithSurvey (sentimentResult : Option CSATResult)
    (copilotSurveyResponse : Option CopilotSurveyResponse) : Option CSATResult :=
  match copilotSurveyResponse, sentimentResult with
  | some sr, some res => some (combineSentimentAndSurvey res sr)
  | some sr, none => some (createCSATFromSurvey sr)
  | none, _ => sentimentResult

/-- Claim C4: for every provider response carrying a sentiment label, the
parsed CSAT score is 5 for positive with confidence above 0.8 and 4 for any
other positive (never below 4), 1 for negative with confidence above 0.8 and
2 for any other negative, 3 for neutral, and mixed is mapped to neutral with
score 3; the result's confidence is the maximum of the three per-class
scores. -/
theorem claim_C4_parseAzureSDKResponse :
    ∀ (r : SentimentSuccessResult) (res : CSATResult),
      parseAzureSDKResponse r = some res →
      (res.confidence = max r.confidenceScores.positive
        (max r.confidenceScores.negative r.confidenceScores.neutral)) ∧
      (r.sentiment = "positive" →
        (res.csatScore = if r.confidenceScores.positive > 8/10 then 5 else 4) ∧
        4 ≤ res.csatScore) ∧
      (r.sentiment = "negative" →
        res.csatScore = if r.confidenceScores.negative > 8/10 then 1 else 2) ∧
      (r.sentiment = "neutral" → res.csatScore = 3) ∧
      (r.sentiment = "mixed" → res.sentiment = "neutral" ∧ res.csatScore = 3) := by
  intro r res h
  unfold parseAzureSDKResponse at h
  by_cases he : r.sentiment = ""
  · rw [if_pos he] at h
    exact absurd h (by simp)
  · rw [if_neg he] at h
    simp only [Option.some.injEq] at h
    subst h
    refine ⟨rfl, ?_, ?_, ?_, ?_⟩
    · intro hs
      rw [hs]
      constructor
      · simp only [if_neg (by decide : ¬("positive" : String) = "mixed"),
          if_pos (rfl : ("positive" : String) = "positive")]
        split_ifs <;> norm_num
      · simp only [if_neg (by decide : ¬("positive" : String) = "mixed"),
          if_pos (rfl : ("positive" : String) = "positive")]
        split_ifs <;> norm_num
    · intro hs
      rw [hs]
      simp only [if_neg (by decide : ¬("negative" : String) = "mixed"),
        if_neg (by decide : ¬("negative" : String) = "positive"),
        if_pos (rfl : ("negative" : String) = "negative")]
      rw [if_pos trivial]
      split_ifs <;> rfl
    · intro hs
      rw [hs]
      simp only [if_neg (by decide : ¬("neutral" : String) = "mixed"),
        if_neg (by decide : ¬("neutral" : String) = "positive"),
        if_neg (by decide : ¬("neutral" : String) = "negative")]
    · intro hs
      rw [hs]
      simp only [if_pos (rfl : ("mixed" : String) = "mixed"),
        if_neg (by decide : ¬("neutral" : String) = "positive"),
        if_neg (by decide : ¬("neutral" : String) = "negative")]
      exact ⟨rfl, rfl⟩

/-- A provider response with positive sentiment at confidence 0.9. -/
def positiveResult : SentimentSuccessResult :=
  { sentiment := "positive"
    confidenceScores := { positive := 9/10, negative := 1/20, neutral := 1/20 } }

/-- The CSAT result the parser produces for `positiveResult`. -/
def positiveCSAT : CSATResult :=
  { csatScore := 5
    confidence := 9/10
    sentiment := "positive"
    satisfactionLevel := "Very Satisfied"
    surveyResponseIncluded := false }

/-- Claim C4 witness: the parser maps `positiveResult` to `positiveCSAT`, and
the theorem's conclusions hold there. -/
theorem claim_C4_witness :
    (positiveCSAT.confidence = max positiveResult.confidenceScores.positive
      (max positiveResult.confidenceScores.negative positiveResult.confidenceScores.neutral)) ∧
    (positiveResult.sentiment = "positive" →
      (positiveCSAT.csatScore =
        if positiveResult.confidenceScores.positive > 8/10 then 5 else 4) ∧
      4 ≤ positiveCSAT.csatScore) ∧
    (positiveResult.sentiment = "negative" →
      positiveCSAT.csatScore =
        if positiveResult.confidenceScores.negative > 8/10 then 1 else 2) ∧
    (positiveResult.sentiment = "neutral" → positiveCSAT.csatScore = 3) ∧
    (positiveResult.sentiment = "mixed" →
      positiveCSAT.sentiment = "neutral" ∧ positiveCSAT.csatScore = 3) :=
  claim_C4_parseAzureSDKResponse positiveResult positiveCSAT (by
    rw [parseAzureSDKResponse]
    simp only [positiveResult, positiveCSAT]
    norm_num [mapSentimentToSatisfaction, max_def]
    decide)

/-- Claim C5: for a survey response parsing to an integer 1-5, the blended
result has score `round(survey*0.7 + aiScore*0.3)` clamped to [1, 5],
confidence `max(aiConfidence, 0.95)`, sentiment re-derived from the final
score, and the survey marked as included. -/
theorem claim_C5_combineSentimentAndSurvey :
    ∀ (sentimentResult : CSATResult) (surveyResponse : CopilotSurveyResponse) (n : Int),
      parseIntJS surveyResponse.response = some n → 1 ≤ n → n ≤ 5 →
      combineSentimentAndSurvey sentimentResult surveyResponse =
        { csatScore := max 1 (min 5 (round
            ((n : Rat) * (7/10) + (sentimentResult.csatScore : Rat) * (3/10))))
          confidence := max sentimentResult.confidence (95/100)
          sentiment := mapScoreToSentiment (max 1 (min 5 (round
            ((n : Rat) * (7/10) + (sentimentResult.csatScore : Rat) * (3/10)))))
          satisfactionLevel := mapSentimentToSatisfaction "" (max 1 (min 5 (round
            ((n : Rat) * (7/10) + (sentimentResult.csatScore : Rat) * (3/10)))))
          surveyResponseIncluded := true } := by
  intro res sr n hp h1 h5
  simp only [combineSentimentAndSurvey, hp]
  rw [if_neg (by omega)]

/-- The AI result of the specification's blend example: score 4. -/
def aiResultFour : CSATResult :=
  { csatScore := 4
    confidence := 6/10
    sentiment := "positive"
    satisfactionLevel := "Satisfied"
    surveyResponseIncluded := false }

/-- The survey answer `"5"` of the specification's blend example. -/
def surveyFive : CopilotSurveyResponse :=
  { response := "5", timestamp := "2024-01-01T00:00:00Z" }

/-- Claim C5 witness: blending AI score 4 with survey `"5"` gives
`round(5*0.7 + 4*0.3) = round(4.7) = 5` with confidence 0.95 and the survey
marked as included. -/
theorem claim_C5_witness :
    combineSentimentAndSurvey aiResultFour surveyFive =
      { csatScore := 5
        confidence := 95/100
        sentiment := "positive"
        satisfactionLevel := "Very Satisfied"
        surveyResponseIncluded := true } := by
  rw [claim_C5_combineSentimentAndSurvey aiResultFour surveyFive 5
    (by decide) (by decide) (by decide)]
  have hr : round (((5 : Int) : Rat) * (7/10) + ((aiResultFour.csatScore : Int) : Rat) * (3/10)) = 5 := by
    norm_num [aiResultFour, round_eq]
  rw [hr]
  norm_num [aiResultFour, mapScoreToSentiment, mapSentimentToSatisfaction,
    max_def, min_def]

/-- The out-of-range survey answer `"7"`. -/
def surveySeven : CopilotSurveyResponse :=
  { response := "7", timestamp := "2024-01-01T00:00:00Z" }

/-- Claim C9: a survey arriving without an AI result is synthesized into a
CSAT result by `createCSATFromSurvey`: a response parsing to an integer 1-5
becomes the score with confidence 0.95, while a non-numeric or out-of-range
response (such as `"7"`) yields the neutral fallback (score 3, confidence
0.5) instead of a failure or null. -/
theorem claim_C9_createCSATFromSurvey :
    (∀ sr : CopilotSurveyResponse,
      analyzeSentimentWithSurvey none (some sr) = some (createCSATFromSurvey sr) ∧
      (∀ n : Int, parseIntJS sr.response = some n → 1 ≤ n → n ≤ 5 →
        createCSATFromSurvey sr =
          { csatScore := n
            confidence := 95/100
            sentiment := mapScoreToSentiment n
            satisfactionLevel := mapSentimentToSatisfaction "" n
            surveyResponseIncluded := true }) ∧
      (parseIntJS sr.response = none →
        createCSATFromSurvey sr =
          { csatScore := 3
            confidence := 1/2
            sentiment := "neutral"
            satisfactionLevel := "Neutral"
            surveyResponseIncluded := true }) ∧
      (∀ n : Int, parseIntJS sr.response = some n → (n < 1 ∨ 5 < n) →
        createCSATFromSurvey sr =
          { csatScore := 3
            confidence := 1/2
            sentiment := "neutral"
            satisfactionLevel := "Neutral"
            surveyResponseIncluded := true })) ∧
    createCSATFromSurvey surveySeven =
      { csatScore := 3
        confidence := 1/2
        sentiment := "neutral"
        satisfactionLevel := "Neutral"
        surveyResponseIncluded := true } := by
  refine ⟨?_, ?_⟩
  case refine_2 =>
    have h7 : parseIntJS surveySeven.response = some 7 := by decide
    simp only [createCSATFromSurvey, h7]
    rw [if_pos (by omega)]
  intro sr
  refine ⟨rfl, ?_, ?_, ?_⟩
  · intro n hp h1 h5
    simp only [createCSATFromSurvey, hp]
    rw [if_neg (by omega)]
  · intro hp
    simp only [createCSATFromSurvey, hp]
  · intro n hp hrange
    simp only [createCSATFromSurvey, hp]
    rw [if_pos (by omega)]

/-- The satisfaction label determined solely by a 1-5 score (claim C10's
table): 5 Very Satisfied, 4 Satisfied, 3 Neutral, 2 Dissatisfied, 1 Very
Dissatisfied. -/
def scoreLabel (score : Int) : String :=
  if score = 5 then "Very Satisfied"
  else if score = 4 then "Satisfied"
  else if score = 3 then "Neutral"
  else if score = 2 then "Dissatisfied"
  else "Very Dissatisfied"

/-- The CSAT invariant: an integer score in 1..5 whose satisfaction label is
determined solely by the score. -/
def satisfiesCSATInvariant (res : CSATResult) : Prop :=
  1 ≤ res.csatScore ∧ res.csatScore ≤ 5 ∧ res.satisfactionLevel = scoreLabel res.csatScore

/-- Within 1..5 the source's satisfaction mapping ignores its sentiment
argument and agrees with `scoreLabel`. -/
theorem mapSentimentToSatisfaction_eq_scoreLabel (s : String) (n : Int)
    (h1 : 1 ≤ n) (h5 : n ≤ 5) :
    mapSentimentToSatisfaction s n = scoreLabel n := by
  unfold mapSentimentToSatisfaction scoreLabel
  split_ifs <;> first | rfl | omega

/-- A record whose label field is the source's mapping of its score satisfies
the invariant as soon as the score is in range. -/
theorem satisfiesCSATInvariant_record (score : Int) (conf : Rat)
    (sent sent' : String) (inc : Bool) (h1 : 1 ≤ score) (h5 : score ≤ 5) :
    satisfiesCSATInvariant
      { csatScore := score
        confidence := conf
        sentiment := sent
        satisfactionLevel := mapSentimentToSatisfaction sent' score
        surveyResponseIncluded := inc } :=
  ⟨h1, h5, mapSentimentToSatisfaction_eq_scoreLabel sent' score h1 h5⟩

/-- Claim C10: every CSAT result produced by provider-response parsing,
survey blending (given an in-range input, as every pipeline input is), or
survey-only synthesis has an integer score in 1..5, and its satisfaction
label is determined solely by that score. -/
theorem claim_C10_csatInvariant :
    (∀ (r : SentimentSuccessResult) (res : CSATResult),
      parseAzureSDKResponse r = some res → satisfiesCSATInvariant res) ∧
    (∀ (res : CSATResult) (sr : CopilotSurveyResponse),
      satisfiesCSATInvariant res → satisfiesCSATInvariant (combineSentimentAndSurvey res sr)) ∧
    (∀ sr : CopilotSurveyResponse, satisfiesCSATInvariant (createCSATFromSurvey sr)) := by
  refine ⟨?_, ?_, ?_⟩
  · intro r res h
    unfold parseAzureSDKResponse at h
    by_cases he : r.sentiment = ""
    · rw [if_pos he] at h
      exact absurd h (by simp)
    · rw [if_neg he] at h
      simp only [Option.some.injEq] at h
      subst h
      exact satisfiesCSATInvariant_record _ _ _ _ _
        (by split_ifs <;> norm_num) (by split_ifs <;> norm_num)
  · intro res sr hres
    rcases hp : parseIntJS sr.response with _ | n
    · simpa only [combineSentimentAndSurvey, hp] using hres
    · simp only [combineSentimentAndSurvey, hp]
      split_ifs with hr
      · exact hres
      · exact satisfiesCSATInvariant_record _ _ _ _ _ (le_max_left _ _)
          (max_le (by norm_num) (min_le_left _ _))
  · intro sr
    rcases hp : parseIntJS sr.response with _ | n
    · simp only [createCSATFromSurvey, hp]
      exact ⟨by norm_num, by norm_num, by decide⟩
    · simp only [createCSATFromSurvey, hp]
      split_ifs with hr
      · exact ⟨by norm_num, by norm_num, by decide⟩
      · exact satisfiesCSATInvariant_record _ _ _ _ _ (by omega) (by omega)

/-- The string form of a sender for transcript rendering. -/
def senderLabel : Sender → String
  | Sender.customer => "customer"
  | Sender.agent => "agent"
  | Sender.bot => "bot"

/-- One transcript line, translated from `callSentimentAnalysis`
(`SentimentAnalysisService.ts` line 308): the template
`[sender]: content` followed by a newline. -/
def renderLine (message : ChatMessage) : String :=
  "[" ++ senderLabel message.sender ++ "]: " ++ message.content ++ "\n"

/-- The character budget of the assembled conversation text
(`MAX_TEXT_LENGTH`, `SentimentAnalysisService.ts` line 302). -/
def MAX_TEXT_LENGTH : Nat := 5000

/-- The walk of `callSentimentAnalysis` (lines 306-316) after its first
iteration: starting from the accumulated text (at least the newest line),
prepend each older line while the total stays within the budget, and stop at
the first line that would exceed it. -/
def assembleFromNewest : String → List String → String
  | acc, [] => acc
  | acc, messageText :: older =>
    if acc.length + messageText.length ≤ MAX_TEXT_LENGTH then
      assembleFromNewest (messageText ++ acc) older
    else
      acc

/-- The assembled conversation text of `callSentimentAnalysis`
(lines 302-316): walk the rendered lines from the newest backward, always
including the newest line. -/
def conversationText (chatTranscript : List ChatMessage) : String :=
  match (chatTranscript.map renderLine).reverse with
  | [] => ""
  | newest :: older => assembleFromNewest newest older

/-- Total length of a list of strings. -/
def sumLen (ls : List String) : Nat := (ls.map String.length).sum

/-- List-level mirror of `assembleFromNewest`: the accumulated text kept as
the list of lines it concatenates. -/
def collectFromNewest : List String → List String → List String
  | acc, [] => acc
  | acc, messageText :: older =>
    if sumLen acc + messageText.length ≤ MAX_TEXT_LENGTH then
      collectFromNewest (messageText :: acc) older
    else
      acc

/-- Concatenation of a list of strings. -/
def strJoin : List String → String
  | [] => ""
  | s :: rest => s ++ strJoin rest

/-- `strJoin` length is the sum of lengths. -/
theorem strJoin_length (ls : List String) : (strJoin ls).length = sumLen ls := by
  induction ls with
  | nil => rfl
  | cons s rest ih => simp [strJoin, sumLen, ih, String.length_append]

/-- `sumLen` over a cons. -/
theorem sumLen_cons (s : String) (ls : List String) :
    sumLen (s :: ls) = s.length + sumLen ls := by
  simp [sumLen]

/-- The string walk computes the concatenation of the list walk. -/
theorem assembleFromNewest_eq_strJoin_collect (older : List String) :
    ∀ accL : List String,
      assembleFromNewest (strJoin accL) older = strJoin (collectFromNewest accL older) := by
  induction older with
  | nil => intro accL; rfl
  | cons l rest ih =>
    intro accL
    simp only [assembleFromNewest, collectFromNewest, strJoin_length]
    by_cases h : sumLen accL + l.length ≤ MAX_TEXT_LENGTH
    · rw [if_pos h, if_pos h]
      exact ih (l :: accL)
    · rw [if_neg h, if_neg h]

/-- Structure of the list walk: it consumes a longest-possible budget-bounded
prefix of the older lines, prepending it (reversed) to the accumulator; the
first unconsumed line, if any, is exactly the one that would exceed the
budget, and whenever a line was consumed the total stays within the budget. -/
theorem collectFromNewest_split (older : List String) :
    ∀ accL : List String,
      ∃ consumed rest,
        older = consumed ++ rest ∧
        collectFromNewest accL older = consumed.reverse ++ accL ∧
        (rest = [] ∨ ∃ l rest2, rest = l :: rest2 ∧
          MAX_TEXT_LENGTH < sumLen (consumed.reverse ++ accL) + l.length) ∧
        (consumed = [] ∨ sumLen (consumed.reverse ++ accL) ≤ MAX_TEXT_LENGTH) := by
  induction older with
  | nil =>
    intro accL
    exact ⟨[], [], rfl, rfl, Or.inl rfl, Or.inl rfl⟩
  | cons l rest ih =>
    intro accL
    by_cases h : sumLen accL + l.length ≤ MAX_TEXT_LENGTH
    · obtain ⟨consumed', rest', hsplit, hres, hstop, hbudget⟩ := ih (l :: accL)
      have hlist : (l :: consumed').reverse ++ accL = consumed'.reverse ++ (l :: accL) := by
        simp [List.reverse_cons, List.append_assoc]
      refine ⟨l :: consumed', rest', by simp [hsplit], ?_, ?_, ?_⟩
      · show collectFromNewest accL (l :: rest) = (l :: consumed').reverse ++ accL
        simp only [collectFromNewest, if_pos h]
        rw [hres, hlist]
      · rcases hstop with h0 | ⟨l2, r2, he, hb⟩
        · exact Or.inl h0
        · refine Or.inr ⟨l2, r2, he, ?_⟩
          rw [hlist]
          exact hb
      · refine Or.inr ?_
        rcases hbudget with h0 | hb
        · subst h0
          rw [hlist]
          simpa [sumLen_cons, Nat.add_comm] using h
        · rw [hlist]
          exact hb
    · refine ⟨[], l :: rest, rfl, by simp [collectFromNewest, if_neg h], ?_, Or.inl rfl⟩
      refine Or.inr ⟨l, rest, rfl, ?_⟩
      simpa using Nat.lt_of_not_le h

/-- `strJoin` distributes over appending a final singleton. -/
theorem strJoin_append_singleton (ls : List String) (s : String) :
    strJoin (ls ++ [s]) = strJoin ls ++ s := by
  induction ls with
  | nil => simp [strJoin]
  | cons a rest ih => simp [strJoin, ih, String.append_assoc]

/-- Claim C6: for every non-empty transcript, the assembled conversation
text is the concatenation of a contiguous suffix of the rendered lines that
ends at (and always fully contains) the newest line, even when that line
alone exceeds the 5000-character budget; the suffix is the greedy one: if
anything older was cut, the next older line would have pushed the total over
the budget, and whenever an older line was included the total is within the
budget. -/
theorem claim_C6_conversationText :
    ∀ (chatTranscript : List ChatMessage) (h : chatTranscript ≠ []),
      ∃ k, k < chatTranscript.length ∧
        conversationText chatTranscript =
          strJoin ((chatTranscript.map renderLine).drop k) ∧
        (∃ pre, conversationText chatTranscript =
          pre ++ renderLine (chatTranscript.getLast h)) ∧
        (k = 0 ∨ MAX_TEXT_LENGTH <
          sumLen ((chatTranscript.map renderLine).drop (k - 1))) ∧
        (k = chatTranscript.length - 1 ∨
          sumLen ((chatTranscript.map renderLine).drop k) ≤ MAX_TEXT_LENGTH) := by
  intro t ht
  have hl : t.map renderLine ≠ [] := by simpa using ht
  rcases hrev : (t.map renderLine).reverse with _ | ⟨newest, older⟩
  · exact absurd (List.reverse_eq_nil_iff.mp hrev) hl
  · have hdec : t.map renderLine = older.reverse ++ [newest] := by
      have h2 := congrArg List.reverse hrev
      simpa [List.reverse_cons] using h2
    have hct : conversationText t = assembleFromNewest newest older := by
      unfold conversationText
      rw [hrev]
    obtain ⟨consumed, rest, hsplit, hres, hstop, hbudget⟩ :=
      collectFromNewest_split older [newest]
    have hjoin : assembleFromNewest newest older = strJoin (consumed.reverse ++ [newest]) := by
      have h1 := assembleFromNewest_eq_strJoin_collect older [newest]
      have h2 : strJoin [newest] = newest := by simp [strJoin]
      rw [h2] at h1
      rw [h1, hres]
    have hlen_t : t.length = older.length + 1 := by
      have h3 := congrArg List.length hdec
      simpa using h3
    have holder : older.length = consumed.length + rest.length := by
      rw [hsplit]
      simp
    have hdrop : (t.map renderLine).drop rest.length = consumed.reverse ++ [newest] := by
      rw [hdec, hsplit, List.reverse_append, List.append_assoc]
      exact List.drop_left' (by simp)
    have hnewest : newest = renderLine (t.getLast ht) := by
      have h4 : (t.map renderLine).getLast? = some newest := by
        rw [hdec]
        exact List.getLast?_concat _
      rw [List.getLast?_map _ _, List.getLast?_eq_getLast t ht] at h4
      simpa using h4.symm
    refine ⟨rest.length, by omega, ?_, ?_, ?_, ?_⟩
    · rw [hct, hjoin, hdrop]
    · refine ⟨strJoin consumed.reverse, ?_⟩
      rw [hct, hjoin, strJoin_append_singleton, hnewest]
    · rcases hstop with h0 | ⟨l, rest2, he, hb⟩
      · exact Or.inl (by simp [h0])
      · refine Or.inr ?_
        subst he
        have hdrop2 : (t.map renderLine).drop rest2.length =
            l :: (consumed.reverse ++ [newest]) := by
          rw [hdec, hsplit, List.reverse_append, List.reverse_cons,
            List.append_assoc, List.append_assoc]
          exact List.drop_left' (by simp)
        have h5 : (l :: rest2).length - 1 = rest2.length := by simp
        rw [h5, hdrop2, sumLen_cons]
        omega
    · rcases hbudget with h0 | hb
      · refine Or.inl ?_
        have h6 : consumed.length = 0 := by simp [h0]
        omega
      · refine Or.inr ?_
        rw [hdrop]
        exact hb

/-- A two-message transcript used to instantiate claim C6. -/
def sampleTranscript : List ChatMessage :=
  [ { content := "hello", sender := Sender.customer, timestamp := "t1" },
    { content := "goodbye", sender := Sender.agent, timestamp := "t2" } ]

/-- Claim C6 witness: the assembly theorem instantiated at a concrete
two-message transcript. -/
theorem claim_C6_witness :
    ∃ k, k < sampleTranscript.length ∧
      conversationText sampleTranscript =
        strJoin ((sampleTranscript.map renderLine).drop k) ∧
      (∃ pre, conversationText sampleTranscript =
        pre ++ renderLine (sampleTranscript.getLast (by decide))) ∧
      (k = 0 ∨ MAX_TEXT_LENGTH <
        sumLen ((sampleTranscript.map renderLine).drop (k - 1))) ∧
      (k = sampleTranscript.length - 1 ∨
        sumLen ((sampleTranscript.map renderLine).drop k) ≤ MAX_TEXT_LENGTH) :=
  claim_C6_conversationText sampleTranscript (by decide)
